import Mathlib

/-!
Verification of the brepimport surface/pipeline lifecycle manager and frame
renderer.

Shallow embedding of:
  * `src/state.rs`              — the core `State` (configured flag, resize,
                                  camera propagation, indexed frame render);
  * `src/bin/brepview/state.rs` — the pipeline-resource `State`
                                  (`create_pipeline`, `update_pipeline`,
                                  stride-aware indexed / non-indexed draws).

Machine integers are modelled as `Nat`; the one place a narrowing cast occurs
(`u64` buffer sizes cast `as u32` before the element-count division) is
modelled with an explicit `% 2^32`.  A Rust panic (index out of bounds,
division by zero) is modelled by an `Option` result being `none`.  Calls into
the GPU library (surface acquisition, command encoding) are modelled by an
acquisition outcome passed in as a parameter and by an explicit trace of the
draw commands a render call records.
-/

namespace Brep

/-- A GPU texture format as the code observes it: an identity plus the one
predicate the source consults, `is_srgb()`. -/
structure TextureFormat where
  id : Nat
  srgb : Bool
deriving DecidableEq, Repr

/-- Adapter surface capabilities: the three lists `State::new` indexes
(`formats`, `present_modes`, `alpha_modes`); present and alpha modes are
opaque identifiers. -/
structure SurfaceCapabilities where
  formats : List TextureFormat
  presentModes : List Nat
  alphaModes : List Nat
deriving DecidableEq, Repr

/-- The `wgpu::SurfaceConfiguration` record built in `State::new`
(`usage` and `desired_maximum_frame_latency` are the fixed constants the
source writes; `view_formats` is always the empty list and is omitted). -/
structure SurfaceConfiguration where
  usage : Nat
  format : TextureFormat
  width : Nat
  height : Nat
  presentMode : Nat
  alphaMode : Nat
  desiredMaximumFrameLatency : Nat
deriving DecidableEq, Repr

/-- The `RENDER_ATTACHMENT` usage bit. -/
def RENDER_ATTACHMENT : Nat := 16

/-- The format selection of `State::new`
(`src/state.rs:98-103`, identically `src/bin/brepview/state.rs:193-198`):
`formats.iter().copied().find(|f| f.is_srgb()).unwrap_or(formats[0])`.
`formats[0]` on an empty list is the Rust index panic, modelled as `none`;
the `unwrap_or` argument is evaluated unconditionally in Rust, but when
`find` succeeds the list is nonempty, so guarding on emptiness first is
equivalent. -/
def chooseSurfaceFormat (formats : List TextureFormat) : Option TextureFormat :=
  match formats with
  | [] => none
  | f0 :: _ => some ((formats.find? (fun f => f.srgb)).getD f0)

/-- The surface-configuration computation of `State::new`
(`src/state.rs:93-115`): picks the format via `chooseSurfaceFormat` and
indexes `present_modes[0]` and `alpha_modes[0]` with no emptiness check
(`none` = index panic). -/
def initSurfaceConfig (caps : SurfaceCapabilities) (width height : Nat) :
    Option SurfaceConfiguration :=
  match chooseSurfaceFormat caps.formats, caps.presentModes[0]?, caps.alphaModes[0]? with
  | some f, some pm, some am =>
      some { usage := RENDER_ATTACHMENT
             format := f
             width := width
             height := height
             presentMode := pm
             alphaMode := am
             desiredMaximumFrameLatency := 2 }
  | _, _, _ => none

/-- Surface acquisition errors (`wgpu::SurfaceError`) that
`surface.get_current_texture()` can raise. -/
inductive SurfaceError where
  | timeout
  | outdated
  | lost
  | outOfMemory
deriving DecidableEq, Repr

/-- One GPU draw command as recorded into a render pass: `draw_indexed` with
its element count or a non-indexed `draw` with its vertex count. -/
inductive DrawCmd where
  | drawIndexed (elementCount : Nat)
  | draw (vertexCount : Nat)
deriving DecidableEq, Repr

/-- Observable effects of one `render` call: how many redraw requests were
issued to the window, how many surface-image acquisitions were attempted,
the draw commands encoded, and how many queue submissions / surface presents
happened. -/
structure FrameTrace where
  redrawRequests : Nat
  acquireAttempts : Nat
  draws : List DrawCmd
  submits : Nat
  presents : Nat
deriving DecidableEq, Repr

/-- A 3-component vector over exact rationals (the source uses `f32`; the
claims about the camera concern exact translation identities, stated here
over `Rat`). -/
structure Vec3 where
  x : Rat
  y : Rat
  z : Rat
deriving DecidableEq, Repr

namespace Vec3

def zero : Vec3 := ⟨0, 0, 0⟩

def add (a b : Vec3) : Vec3 := ⟨a.x + b.x, a.y + b.y, a.z + b.z⟩

def sub (a b : Vec3) : Vec3 := ⟨a.x - b.x, a.y - b.y, a.z - b.z⟩

def neg (a : Vec3) : Vec3 := ⟨-a.x, -a.y, -a.z⟩

def smul (r : Rat) (a : Vec3) : Vec3 := ⟨r * a.x, r * a.y, r * a.z⟩

def cross (a b : Vec3) : Vec3 :=
  ⟨a.y * b.z - a.z * b.y, a.z * b.x - a.x * b.z, a.x * b.y - a.y * b.x⟩

end Vec3

/-- Modelled from the spec: the `Camera` of the missing `src/camera.rs`
module (`crate::camera`, used by `src/state.rs` but absent from the source
tree).  Per spec §4.4: eye position, look target, up vector, vertical field
of view, aspect ratio, near/far clip distances. -/
structure Camera where
  eye : Vec3
  target : Vec3
  up : Vec3
  fovy : Rat
  aspect : Rat
  znear : Rat
  zfar : Rat
deriving DecidableEq, Repr

/-- Modelled from the spec: the `CameraController` of the missing
`src/camera.rs` module.  Per spec §4.4: one pressed flag per direction and
a configurable speed. -/
structure CameraController where
  speed : Rat
  isForwardPressed : Bool
  isBackwardPressed : Bool
  isLeftPressed : Bool
  isRightPressed : Bool
deriving DecidableEq, Repr

/-- The key codes the program distinguishes. -/
inductive KeyCode where
  | keyW
  | keyA
  | keyS
  | keyD
  | keyQ
  | other (n : Nat)
deriving DecidableEq, Repr

namespace CameraController

/-- Modelled from the spec: `CameraController::new(speed)` with all key
flags initially released. -/
def new (speed : Rat) : CameraController :=
  { speed := speed
    isForwardPressed := false
    isBackwardPressed := false
    isLeftPressed := false
    isRightPressed := false }

/-- The camera's local forward axis, the direction from eye to target
(normalization, irrelevant to the translation identities verified here, is
omitted from the rational model). -/
def forwardAxis (c : Camera) : Vec3 := c.target.sub c.eye

/-- The camera's local right axis, forward crossed with up. -/
def rightAxis (c : Camera) : Vec3 := (forwardAxis c).cross c.up

/-- Modelled from the spec: the net translation one `update_camera` call
applies — each pressed directional flag contributes one incremental step
along the corresponding local axis, scaled by the controller speed
(spec §4.4). -/
def translation (ctl : CameraController) (c : Camera) : Vec3 :=
  let fwd := forwardAxis c
  let rght := rightAxis c
  (Vec3.add
    (Vec3.add
      (if ctl.isForwardPressed then Vec3.smul ctl.speed fwd else Vec3.zero)
      (if ctl.isBackwardPressed then Vec3.neg (Vec3.smul ctl.speed fwd) else Vec3.zero))
    (Vec3.add
      (if ctl.isRightPressed then Vec3.smul ctl.speed rght else Vec3.zero)
      (if ctl.isLeftPressed then Vec3.neg (Vec3.smul ctl.speed rght) else Vec3.zero)))

/-- Modelled from the spec: `CameraController::update_camera` from the
missing `src/camera.rs` — translates eye and target by the key-induced
translation (incremental translation of eye/target along the camera's
local axes, spec §4.4). -/
def update_camera (ctl : CameraController) (c : Camera) : Camera :=
  { c with
    eye := c.eye.add (translation ctl c)
    target := c.target.add (translation ctl c) }

/-- Modelled from the spec: `CameraController::handle_key` from the missing
`src/camera.rs` — sets the directional flag named by the key to the pressed
state (discrete directional key state, one flag per direction, spec §4.4). -/
def handle_key (ctl : CameraController) (code : KeyCode) (pressed : Bool) :
    CameraController :=
  match code with
  | .keyW => { ctl with isForwardPressed := pressed }
  | .keyS => { ctl with isBackwardPressed := pressed }
  | .keyA => { ctl with isLeftPressed := pressed }
  | .keyD => { ctl with isRightPressed := pressed }
  | _ => ctl

end CameraController

namespace Core

/-- The mutable fields of the core `State` (`src/state.rs:15-34`) that the
verified claims observe.  GPU handles (device, queue, surface, buffers,
bind groups, render pipeline) are opaque resources with no further state of
their own; the texture and uniform byte images are not consulted by any
operation modelled here. -/
structure State where
  config : SurfaceConfiguration
  is_surface_configured : Bool
  vertex_count : Nat
  index_count : Nat
  camera : Camera
  camera_controller : CameraController
deriving DecidableEq, Repr

/-- State construction (`State::new`, `src/state.rs:37-299`): the surface
configuration is computed from the adapter capabilities and the window's
inner size, and `is_surface_configured` starts `false`.  `vertex_count` and
`index_count` are the lengths of the crate-root `VERTICES` / `INDICES`
tables and the camera comes from `Camera::new` — both live in crate files
absent from the source tree, so they are taken as parameters.
`CameraController::new(0.2)` fixes the controller.  A `none` result models
the index panic on an empty capability list. -/
def State.new (caps : SurfaceCapabilities) (width height : Nat)
    (vertex_count index_count : Nat) (camera : Camera) : Option State :=
  (initSurfaceConfig caps width height).map fun config =>
    { config := config
      is_surface_configured := false
      vertex_count := vertex_count
      index_count := index_count
      camera := camera
      camera_controller := CameraController.new (1 / 5) }

/-- Resize (`State::resize`, `src/state.rs:301-308`): only when both
dimensions are positive does it store the new extent, reconfigure the
surface, and set the configured flag — and the flag is only ever written
`true`. -/
def State.resize (s : State) (width height : Nat) : State :=
  if width > 0 && height > 0 then
    { s with
      config := { s.config with width := width, height := height }
      is_surface_configured := true }
  else s

/-- Key handling (`State::handle_key`, `src/state.rs:310-316`): `Q` pressed
exits the event loop (no `State` field changes); every other key event is
forwarded to the camera controller. -/
def State.handle_key (s : State) (code : KeyCode) (is_pressed : Bool) : State :=
  match code, is_pressed with
  | .keyQ, true => s
  | _, _ =>
      { s with
        camera_controller := s.camera_controller.handle_key code is_pressed }

/-- Per-frame update (`State::update`, `src/state.rs:318-322`): the
controller moves the camera; the derived uniform matrix is then rewritten
into the existing GPU buffer (a queue effect with no further `State`
field changes). -/
def State.update (s : State) : State :=
  { s with camera := CameraController.update_camera s.camera_controller s.camera }

/-- Frame render (`State::render`, `src/state.rs:325-386`): requests a
redraw first in every path; while the surface is unconfigured it returns
`Ok` without touching the surface; otherwise it acquires the next surface
image (outcome supplied by the environment as `acquire`), encodes one
render pass ending in `draw_indexed(0..index_count, 0, 0..1)`, submits,
and presents. -/
def State.render (s : State) (acquire : Except SurfaceError Unit) :
    Except SurfaceError Unit × FrameTrace :=
  if !s.is_surface_configured then
    (Except.ok (),
     { redrawRequests := 1, acquireAttempts := 0, draws := [], submits := 0, presents := 0 })
  else
    match acquire with
    | .error e =>
        (Except.error e,
         { redrawRequests := 1, acquireAttempts := 1, draws := [], submits := 0, presents := 0 })
    | .ok _ =>
        (Except.ok (),
         { redrawRequests := 1, acquireAttempts := 1,
           draws := [DrawCmd.drawIndexed s.index_count], submits := 1, presents := 1 })

/-- The operations the event loop can invoke on a constructed `State`
(spec §6): resize notification, keyboard input, per-frame camera update,
and a render request (carrying the surface-acquisition outcome of its
environment). -/
inductive Op where
  | resize (width height : Nat)
  | handleKey (code : KeyCode) (pressed : Bool)
  | update
  | render (acquire : Except SurfaceError Unit)

/-- State transition of one operation.  `render` mutates no `State`
field (`src/state.rs:325-386` only reads them), so its transition is the
identity; its observable trace is given by `State.render`. -/
def step (s : State) : Op → State
  | .resize w h => s.resize w h
  | .handleKey c p => s.handle_key c p
  | .update => s.update
  | .render _ => s

/-- Running a sequence of event-loop operations. -/
def run (s : State) (ops : List Op) : State := ops.foldl step s

end Core

namespace Brepview

/-- A GPU-resident buffer created by `create_buffer_init`: it holds a copy
of the caller-supplied byte content (spec §3, ResourceBuffers: buffers are
allocated from caller-supplied byte content, their byte size at this
interface being the content's length). -/
structure Buffer where
  contents : List Nat
deriving DecidableEq, Repr

/-- Byte size of a buffer (`wgpu::Buffer::size()`, a `u64`). -/
def Buffer.size (b : Buffer) : Nat := b.contents.length

/-- One typed attribute of a vertex layout. -/
structure VertexAttribute where
  offset : Nat
  shader_location : Nat
  format : Nat
deriving DecidableEq, Repr

/-- A `wgpu::VertexBufferLayout`: byte stride of one vertex
(`array_stride`, a `u64`) plus the attribute list. -/
structure VertexBufferLayout where
  array_stride : Nat
  attributes : List VertexAttribute
deriving DecidableEq, Repr

/-- A `wgpu::ShaderModuleDescriptor`: a label and the WGSL source text. -/
structure ShaderModuleDescriptor where
  label : Option String
  source : String
deriving DecidableEq, Repr

/-- The `ShaderInfo` of `src/bin/brepview/state.rs:57-64`. -/
structure ShaderInfo where
  desc : ShaderModuleDescriptor
  vertex_entry : Option String
  fragment_entry : Option String
deriving DecidableEq, Repr

/-- A `wgpu::util::BufferInitDescriptor`: label, raw initial byte contents,
and the usage flag the buffer is tagged with. -/
structure BufferInitDescriptor where
  label : Option String
  contents : List Nat
  usage : Nat
deriving DecidableEq, Repr

/-- The `PipelineInfo` of `src/bin/brepview/state.rs:43-52`: the
device-agnostic pipeline description.  `index_buffer_init.fst` is the byte
stride of a single index; the optional second component supplies index
buffer contents. -/
structure PipelineInfo where
  vertex_layout : VertexBufferLayout
  vertex_buffer_init : BufferInitDescriptor
  index_buffer_init : Nat × Option BufferInitDescriptor
  front_face : Bool
  cull_mode : Option Bool
  shader_info : ShaderInfo
deriving DecidableEq, Repr

/-- The single failure of pipeline building (spec §4.3 / §7):
`ShaderCompileFailed`. -/
inductive BuildError where
  | shaderCompileFailed
deriving DecidableEq, Repr

/-- The one observable of the GPU device that pipeline building depends on:
whether a given shader module source compiles.  `create_shader_module` is
an external library call and the only fallible step of
`State::create_pipeline` (`src/bin/brepview/state.rs:74`); its failure on
malformed source is the `ShaderCompileFailed` case of spec §7. -/
structure Device where
  shaderCompiles : ShaderModuleDescriptor → Bool

/-- What `create_render_pipeline` receives from `create_pipeline`
(`src/bin/brepview/state.rs:95-134`): shader entry points, the vertex
layout, a single color target in the surface's configured format, and the
winding/culling taken verbatim from the description. -/
structure RenderPipelineDesc where
  vertexEntry : Option String
  fragmentEntry : Option String
  vertexLayout : VertexBufferLayout
  targetFormat : TextureFormat
  front_face : Bool
  cull_mode : Option Bool
deriving DecidableEq, Repr

/-- The `PipelineResource` of `src/bin/brepview/state.rs:32-38`. -/
structure PipelineResource where
  inner : RenderPipelineDesc
  vertex_layout : VertexBufferLayout
  vertex_buffer : Buffer
  index_buffer : Option Buffer
  index_stride : Nat
deriving DecidableEq, Repr

/-- The brepview `State` (`src/bin/brepview/state.rs:15-28`). -/
structure State where
  device : Device
  surface_config : SurfaceConfiguration
  pipeline : PipelineResource

/-- Pipeline building (`State::create_pipeline`,
`src/bin/brepview/state.rs:68-143`): compiles the shader module, copies the
description's vertex bytes (and index bytes when supplied) into fresh
buffers, and assembles the pipeline; the compiled bundle is returned.  The
only fallible step is shader compilation; on it the error propagates and
nothing is returned. -/
def State.create_pipeline (device : Device) (surface_config : SurfaceConfiguration)
    (info : PipelineInfo) : Except BuildError PipelineResource :=
  if device.shaderCompiles info.shader_info.desc then
    Except.ok
      { inner :=
          { vertexEntry := info.shader_info.vertex_entry
            fragmentEntry := info.shader_info.fragment_entry
            vertexLayout := info.vertex_layout
            targetFormat := surface_config.format
            front_face := info.front_face
            cull_mode := info.cull_mode }
        vertex_layout := info.vertex_layout
        vertex_buffer := { contents := info.vertex_buffer_init.contents }
        index_buffer :=
          (info.index_buffer_init.snd).map fun init => { contents := init.contents }
        index_stride := info.index_buffer_init.fst }
  else
    Except.error BuildError.shaderCompileFailed

/-- Pipeline replacement (`State::update_pipeline`,
`src/bin/brepview/state.rs:237-240`): `self.pipeline =
Self::create_pipeline(&self.device, &self.surface_config, info)?` — on
failure the `?` propagates the error before any assignment, so the active
pipeline is untouched. -/
def State.update_pipeline (s : State) (info : PipelineInfo) :
    Except BuildError Unit × State :=
  match State.create_pipeline s.device s.surface_config info with
  | Except.error e => (Except.error e, s)
  | Except.ok p => (Except.ok (), { s with pipeline := p })

/-- Resize (`State::resize`, `src/bin/brepview/state.rs:225-233`): applies
the new extent and reconfigures the surface only when both dimensions are
positive (this `State` carries no configured flag). -/
def State.resize (s : State) (width height : Nat) : State :=
  if width > 0 && height > 0 then
    { s with surface_config := { s.surface_config with width := width, height := height } }
  else s

/-- Frame render (`State::render`, `src/bin/brepview/state.rs:252-307`):
requests a redraw, acquires the surface image (outcome supplied by the
environment), encodes one render pass, then draws.  With an index buffer
present the element count is `(idx_buf.size() as u32) / index_stride`;
otherwise the vertex count is `(vertex_buffer.size() as u32) /
(array_stride as u32)`.  The `as u32` narrowing casts are `% 2^32`; a Rust
`u32` division by a zero stride panics, modelled as `none`. -/
def State.render (s : State) (acquire : Except SurfaceError Unit) :
    Option (Except SurfaceError Unit × FrameTrace) :=
  match acquire with
  | Except.error e =>
      some (Except.error e,
        { redrawRequests := 1, acquireAttempts := 1, draws := [], submits := 0, presents := 0 })
  | Except.ok _ =>
      match s.pipeline.index_buffer with
      | some idx_buf =>
          if s.pipeline.index_stride = 0 then none
          else
            some (Except.ok (),
              { redrawRequests := 1, acquireAttempts := 1
                draws := [DrawCmd.drawIndexed ((idx_buf.size % 2 ^ 32) / s.pipeline.index_stride)]
                submits := 1, presents := 1 })
      | none =>
          let vertex_stride := s.pipeline.vertex_layout.array_stride % 2 ^ 32
          if vertex_stride = 0 then none
          else
            some (Except.ok (),
              { redrawRequests := 1, acquireAttempts := 1
                draws := [DrawCmd.draw ((s.pipeline.vertex_buffer.size % 2 ^ 32) / vertex_stride)]
                submits := 1, presents := 1 })

end Brepview

/-! Concrete sample inputs used to instantiate the verified statements. -/

/-- A sample sRGB surface format. -/
def srgbFormat : TextureFormat := { id := 0, srgb := true }

/-- A sample non-sRGB surface format. -/
def linearFormat : TextureFormat := { id := 1, srgb := false }

/-- Sample adapter capabilities with nonempty lists. -/
def sampleCaps : SurfaceCapabilities :=
  { formats := [linearFormat, srgbFormat], presentModes := [0], alphaModes := [0] }

/-- Capabilities of an adapter reporting only empty lists. -/
def emptyCaps : SurfaceCapabilities :=
  { formats := [], presentModes := [], alphaModes := [] }

/-- A sample surface configuration at 800x600. -/
def sampleConfig : SurfaceConfiguration :=
  { usage := RENDER_ATTACHMENT, format := srgbFormat, width := 800, height := 600
    presentMode := 0, alphaMode := 0, desiredMaximumFrameLatency := 2 }

/-- A sample camera pose. -/
def sampleCamera : Camera :=
  { eye := ⟨0, 1, 2⟩, target := ⟨0, 0, 0⟩, up := ⟨0, 1, 0⟩
    fovy := 45, aspect := 4 / 3, znear := 1 / 10, zfar := 100 }

/-- A controller with no directional key pressed. -/
def idleController : CameraController := CameraController.new (1 / 5)

/-- A controller with the forward key pressed. -/
def forwardController : CameraController :=
  { CameraController.new (1 / 5) with isForwardPressed := true }

/-- A freshly constructed core state (before any successful configure). -/
def sampleCoreState : Core.State :=
  { config := sampleConfig, is_surface_configured := false, vertex_count := 4
    index_count := 6, camera := sampleCamera, camera_controller := idleController }

/-- A core state after a successful configure. -/
def configuredCoreState : Core.State :=
  { sampleCoreState with is_surface_configured := true }

/-- The core state `State.new sampleCaps 800 600 4 6 sampleCamera` builds. -/
def sampleNewCoreState : Core.State :=
  { config :=
      { usage := RENDER_ATTACHMENT, format := srgbFormat, width := 800, height := 600
        presentMode := 0, alphaMode := 0, desiredMaximumFrameLatency := 2 }
    is_surface_configured := false, vertex_count := 4, index_count := 6
    camera := sampleCamera, camera_controller := CameraController.new (1 / 5) }

/-- A device on which every shader source compiles. -/
def okDevice : Brepview.Device := { shaderCompiles := fun _ => true }

/-- A device on which no shader source compiles (malformed source). -/
def failDevice : Brepview.Device := { shaderCompiles := fun _ => false }

/-- Sample shader info with both entry points named. -/
def sampleShaderInfo : Brepview.ShaderInfo :=
  { desc := { label := some "Shader Model", source := "sample wgsl source" }
    vertex_entry := some "vs_main", fragment_entry := some "fs_main" }

/-- The 24-byte vertex layout of brepview's `MyVertex` (six packed `f32`
fields: position and color). -/
def sampleVertexLayout : Brepview.VertexBufferLayout :=
  { array_stride := 24
    attributes := [{ offset := 0, shader_location := 0, format := 0 },
                   { offset := 12, shader_location := 1, format := 0 }] }

/-- 72 bytes of vertex content: three 24-byte vertices. -/
def sampleVertexBytes : List Nat := List.replicate 72 0

/-- 6 bytes of index content: three 2-byte (`u16`) indices. -/
def sampleIndexBytes : List Nat := [0, 0, 1, 0, 2, 0]

/-- The index buffer created from `sampleIndexBytes`. -/
def sampleIndexBuffer : Brepview.Buffer := { contents := sampleIndexBytes }

/-- A pipeline description with a 3-vertex vertex buffer and a stride-2
index buffer of 6 bytes. -/
def indexedPipelineInfo : Brepview.PipelineInfo :=
  { vertex_layout := sampleVertexLayout
    vertex_buffer_init := { label := some "Vertex Buffer", contents := sampleVertexBytes, usage := 32 }
    index_buffer_init :=
      (2, some { label := some "Index Buffer", contents := sampleIndexBytes, usage := 16 })
    front_face := true, cull_mode := none, shader_info := sampleShaderInfo }

/-- The 3-vertex, no-index pipeline description brepview's `main.rs` builds
(`index_buffer_init: (0, None)`). -/
def noIndexPipelineInfo : Brepview.PipelineInfo :=
  { vertex_layout := sampleVertexLayout
    vertex_buffer_init := { label := some "Vertex Buffer", contents := sampleVertexBytes, usage := 32 }
    index_buffer_init := (0, none)
    front_face := true, cull_mode := none, shader_info := sampleShaderInfo }

/-- The pipeline resource `create_pipeline okDevice sampleConfig
indexedPipelineInfo` builds. -/
def builtIndexedPipeline : Brepview.PipelineResource :=
  { inner :=
      { vertexEntry := some "vs_main", fragmentEntry := some "fs_main"
        vertexLayout := sampleVertexLayout, targetFormat := srgbFormat
        front_face := true, cull_mode := none }
    vertex_layout := sampleVertexLayout
    vertex_buffer := { contents := sampleVertexBytes }
    index_buffer := some sampleIndexBuffer
    index_stride := 2 }

/-- The pipeline resource `create_pipeline okDevice sampleConfig
noIndexPipelineInfo` builds. -/
def builtNoIndexPipeline : Brepview.PipelineResource :=
  { inner :=
      { vertexEntry := some "vs_main", fragmentEntry := some "fs_main"
        vertexLayout := sampleVertexLayout, targetFormat := srgbFormat
        front_face := true, cull_mode := none }
    vertex_layout := sampleVertexLayout
    vertex_buffer := { contents := sampleVertexBytes }
    index_buffer := none
    index_stride := 0 }

/-- A brepview state holding the indexed pipeline, on a working device. -/
def indexedViewState : Brepview.State :=
  { device := okDevice, surface_config := sampleConfig, pipeline := builtIndexedPipeline }

/-- A brepview state holding the no-index pipeline, on a working device. -/
def noIndexViewState : Brepview.State :=
  { device := okDevice, surface_config := sampleConfig, pipeline := builtNoIndexPipeline }

/-- A brepview state whose device rejects every shader source. -/
def failingViewState : Brepview.State :=
  { device := failDevice, surface_config := sampleConfig, pipeline := builtIndexedPipeline }

end Brep

/-! Helper lemmas. -/

namespace Brep

theorem Vec3.add_zero_eq (a : Vec3) : a.add Vec3.zero = a := by
  cases a
  simp [Vec3.add, Vec3.zero]

theorem Vec3.sub_add_same (a b v : Vec3) : (a.add v).sub (b.add v) = a.sub b := by
  cases a; cases b; cases v
  simp only [Vec3.add, Vec3.sub, Vec3.mk.injEq]
  refine ⟨by ring, by ring, by ring⟩

theorem find_eq_filterHead {α : Type} (p : α → Bool) (l : List α) :
    l.find? p = (l.filter p).head? := by
  induction l with
  | nil => rfl
  | cons a t ih =>
      by_cases h : p a
      · rw [List.find?_cons_of_pos _ h, List.filter_cons_of_pos h, List.head?_cons]
      · rw [List.find?_cons_of_neg _ h, List.filter_cons_of_neg h, ih]

theorem step_keeps_configured (s : Core.State) (op : Core.Op)
    (h : s.is_surface_configured = true) :
    (Core.step s op).is_surface_configured = true := by
  cases op with
  | resize w hgt =>
      simp only [Core.step, Core.State.resize]
      split
      · rfl
      · exact h
  | handleKey code pressed =>
      cases code <;> cases pressed <;> simpa [Core.step, Core.State.handle_key] using h
  | update => simpa [Core.step, Core.State.update] using h
  | render acq => simpa [Core.step] using h

theorem step_keeps_config_choice (s : Core.State) (op : Core.Op) :
    (Core.step s op).config.format = s.config.format ∧
    (Core.step s op).config.presentMode = s.config.presentMode ∧
    (Core.step s op).config.alphaMode = s.config.alphaMode := by
  cases op with
  | resize w hgt =>
      simp only [Core.step, Core.State.resize]
      split
      · exact ⟨rfl, rfl, rfl⟩
      · exact ⟨rfl, rfl, rfl⟩
  | handleKey code pressed =>
      cases code <;> cases pressed <;> exact ⟨rfl, rfl, rfl⟩
  | update => exact ⟨rfl, rfl, rfl⟩
  | render acq => exact ⟨rfl, rfl, rfl⟩

theorem run_keeps_configured (s : Core.State) (ops : List Core.Op)
    (h : s.is_surface_configured = true) :
    (Core.run s ops).is_surface_configured = true := by
  induction ops generalizing s with
  | nil => exact h
  | cons op t ih => exact ih (Core.step s op) (step_keeps_configured s op h)

theorem run_keeps_config_choice (s : Core.State) (ops : List Core.Op) :
    (Core.run s ops).config.format = s.config.format ∧
    (Core.run s ops).config.presentMode = s.config.presentMode ∧
    (Core.run s ops).config.alphaMode = s.config.alphaMode := by
  induction ops generalizing s with
  | nil => exact ⟨rfl, rfl, rfl⟩
  | cons op t ih =>
      obtain ⟨h1, h2, h3⟩ := ih (Core.step s op)
      obtain ⟨g1, g2, g3⟩ := step_keeps_config_choice s op
      exact ⟨h1.trans g1, h2.trans g2, h3.trans g3⟩

end Brep

/-! Claim theorems. -/

namespace Brep

/-- Claim C2: for every state in which the surface-configured flag is false,
a call to `render` returns success, performs no draw — it acquires no
surface image and encodes no commands — and still requests another redraw
before returning. -/
theorem render_unconfigured_is_noop (s : Core.State)
    (acquire : Except SurfaceError Unit)
    (h : s.is_surface_configured = false) :
    s.render acquire =
      (Except.ok (),
       { redrawRequests := 1, acquireAttempts := 0, draws := [], submits := 0, presents := 0 }) := by
  simp [Core.State.render, h]

/-- Witness for C2 at a concrete unconfigured state. -/
theorem render_unconfigured_is_noop_witness :
    sampleCoreState.is_surface_configured = false ∧
    sampleCoreState.render (Except.ok ()) =
      (Except.ok (),
       { redrawRequests := 1, acquireAttempts := 0, draws := [], submits := 0, presents := 0 }) :=
  ⟨rfl, render_unconfigured_is_noop sampleCoreState (Except.ok ()) rfl⟩

/-- Claim C3: a resize with a zero dimension leaves the configured flag and
the stored width and height unchanged, in the core state and in the
brepview state alike; in particular a (0,0) resize arriving between valid
configurations of (800,600) and (1024,768) leaves the final active
configuration at (1024,768). -/
theorem resize_zero_is_noop (s : Core.State) (v : Brepview.State) (w hgt : Nat)
    (hz : w = 0 ∨ hgt = 0) :
    s.resize w hgt = s ∧
    v.resize w hgt = v ∧
    ((s.resize 800 600).resize 0 0) = s.resize 800 600 ∧
    (((s.resize 800 600).resize 0 0).resize 1024 768).config.width = 1024 ∧
    (((s.resize 800 600).resize 0 0).resize 1024 768).config.height = 768 := by
  refine ⟨?_, ?_, ?_, ?_, ?_⟩
  · rcases hz with rfl | rfl <;> simp [Core.State.resize]
  · rcases hz with rfl | rfl <;> simp [Brepview.State.resize]
  · simp [Core.State.resize]
  · simp [Core.State.resize]
  · simp [Core.State.resize]

/-- Witness for C3 at a concrete state and the concrete (0,0) input. -/
theorem resize_zero_is_noop_witness :
    sampleCoreState.resize 0 0 = sampleCoreState ∧
    (((sampleCoreState.resize 800 600).resize 0 0).resize 1024 768).config.width = 1024 ∧
    (((sampleCoreState.resize 800 600).resize 0 0).resize 1024 768).config.height = 768 := by
  obtain ⟨h1, _, _, h4, h5⟩ :=
    resize_zero_is_noop sampleCoreState indexedViewState 0 0 (Or.inl rfl)
  exact ⟨h1, h4, h5⟩

/-- Claim C4: after a resize to strictly positive dimensions the active
surface configuration reports exactly that width and height, and the
configured flag is true. -/
theorem resize_positive_configures (s : Core.State) (w hgt : Nat)
    (hw : 0 < w) (hh : 0 < hgt) :
    (s.resize w hgt).config.width = w ∧
    (s.resize w hgt).config.height = hgt ∧
    (s.resize w hgt).is_surface_configured = true := by
  simp [Core.State.resize, hw, hh]

/-- Witness for C4 at the concrete input (1024, 768). -/
theorem resize_positive_configures_witness :
    (sampleCoreState.resize 1024 768).config.width = 1024 ∧
    (sampleCoreState.resize 1024 768).config.height = 768 ∧
    (sampleCoreState.resize 1024 768).is_surface_configured = true :=
  resize_positive_configures sampleCoreState 1024 768 (by decide) (by decide)

/-- Claim C1: with an index buffer present, one render call issues exactly
one indexed draw whose element count is the index buffer's byte size
divided by the index element stride. -/
theorem render_indexed_element_count (s : Brepview.State) (b : Brepview.Buffer)
    (hbuf : s.pipeline.index_buffer = some b)
    (hstride : 0 < s.pipeline.index_stride)
    (hsize : b.size < 2 ^ 32) :
    s.render (Except.ok ()) =
      some (Except.ok (),
        { redrawRequests := 1, acquireAttempts := 1
          draws := [DrawCmd.drawIndexed (b.size / s.pipeline.index_stride)]
          submits := 1, presents := 1 }) := by
  have hne : s.pipeline.index_stride ≠ 0 := Nat.pos_iff_ne_zero.mp hstride
  have hsz := hsize
  norm_num at hsz
  simp [Brepview.State.render, hbuf, hne, Nat.mod_eq_of_lt hsz]

/-- Witness for C1: a stride-2 index buffer of 6 bytes draws exactly
6 / 2 = 3 indexed elements. -/
theorem render_indexed_element_count_witness :
    indexedViewState.pipeline.index_buffer = some sampleIndexBuffer ∧
    indexedViewState.pipeline.index_stride = 2 ∧
    sampleIndexBuffer.size = 6 ∧
    indexedViewState.render (Except.ok ()) =
      some (Except.ok (),
        { redrawRequests := 1, acquireAttempts := 1
          draws := [DrawCmd.drawIndexed 3], submits := 1, presents := 1 }) := by
  refine ⟨rfl, rfl, rfl, ?_⟩
  exact render_indexed_element_count indexedViewState sampleIndexBuffer rfl
    (by decide) (by decide)

/-- Claim C5: with no index buffer, one render call issues exactly one
non-indexed draw whose vertex count is the vertex buffer's byte size
divided by the vertex stride. -/
theorem render_nonindexed_vertex_count (s : Brepview.State)
    (hbuf : s.pipeline.index_buffer = none)
    (hstride : 0 < s.pipeline.vertex_layout.array_stride)
    (hstride32 : s.pipeline.vertex_layout.array_stride < 2 ^ 32)
    (hsize : s.pipeline.vertex_buffer.size < 2 ^ 32) :
    s.render (Except.ok ()) =
      some (Except.ok (),
        { redrawRequests := 1, acquireAttempts := 1
          draws := [DrawCmd.draw
            (s.pipeline.vertex_buffer.size / s.pipeline.vertex_layout.array_stride)]
          submits := 1, presents := 1 }) := by
  have hne : s.pipeline.vertex_layout.array_stride ≠ 0 := Nat.pos_iff_ne_zero.mp hstride
  have hst := hstride32
  have hsz := hsize
  norm_num at hst hsz
  simp [Brepview.State.render, hbuf, Nat.mod_eq_of_lt hst, hne, Nat.mod_eq_of_lt hsz]

/-- Witness for C5: the 3-vertex, no-index description (stride 24, 72 vertex
bytes) draws exactly 3 vertices in one non-indexed draw. -/
theorem render_nonindexed_vertex_count_witness :
    noIndexViewState.pipeline.index_buffer = none ∧
    noIndexViewState.pipeline.vertex_layout.array_stride = 24 ∧
    noIndexViewState.pipeline.vertex_buffer.size = 72 ∧
    noIndexViewState.render (Except.ok ()) =
      some (Except.ok (),
        { redrawRequests := 1, acquireAttempts := 1
          draws := [DrawCmd.draw 3], submits := 1, presents := 1 }) := by
  refine ⟨rfl, rfl, rfl, ?_⟩
  exact render_nonindexed_vertex_count noIndexViewState rfl (by decide) (by decide) (by decide)

/-- Claim C6: the surface format is chosen as the first adapter-supported
format flagged sRGB when one exists, else the first supported format; the
choice is made once — no subsequent sequence of operations (resize
included) changes the configuration's format, present mode, or alpha
mode. -/
theorem surface_format_chosen_once (formats : List TextureFormat)
    (s : Core.State) (ops : List Core.Op) :
    chooseSurfaceFormat formats =
      Option.orElse ((formats.filter (fun f => f.srgb)).head?) (fun _ => formats.head?) ∧
    (Core.run s ops).config.format = s.config.format ∧
    (Core.run s ops).config.presentMode = s.config.presentMode ∧
    (Core.run s ops).config.alphaMode = s.config.alphaMode := by
  refine ⟨?_, run_keeps_config_choice s ops⟩
  cases formats with
  | nil => rfl
  | cons f0 t =>
      simp only [chooseSurfaceFormat]
      rw [find_eq_filterHead]
      cases hfil : ((f0 :: t).filter (fun f => f.srgb)).head? with
      | none => simp [Option.orElse]
      | some f => simp [Option.orElse]

/-- Claim C7: pipeline building fails only on shader compilation failure,
the failure is propagated by `update_pipeline`, and on failure the
previously active pipeline bundle is left untouched; on success exactly the
newly built bundle is installed. -/
theorem pipeline_build_atomic (s : Brepview.State) (info : Brepview.PipelineInfo) :
    (∀ e, Brepview.State.create_pipeline s.device s.surface_config info = Except.error e →
        s.device.shaderCompiles info.shader_info.desc = false ∧
        e = Brepview.BuildError.shaderCompileFailed) ∧
    (∀ e, Brepview.State.create_pipeline s.device s.surface_config info = Except.error e →
        s.update_pipeline info = (Except.error e, s)) ∧
    (∀ p, Brepview.State.create_pipeline s.device s.surface_config info = Except.ok p →
        s.update_pipeline info = (Except.ok (), { s with pipeline := p })) := by
  refine ⟨?_, ?_, ?_⟩
  · intro e he
    by_cases hc : s.device.shaderCompiles info.shader_info.desc
    · simp [Brepview.State.create_pipeline, hc] at he
    · unfold Brepview.State.create_pipeline at he
      rw [if_neg hc] at he
      injection he with h
      exact ⟨by simpa using hc, h.symm⟩
  · intro e he
    simp [Brepview.State.update_pipeline, he]
  · intro p hp
    simp [Brepview.State.update_pipeline, hp]

/-- Witness for C7: on a device rejecting the shader source, the rebuild
reports the compile failure and keeps the old pipeline; on a working device
it installs exactly the built bundle. -/
theorem pipeline_build_atomic_witness :
    failingViewState.update_pipeline indexedPipelineInfo =
      (Except.error Brepview.BuildError.shaderCompileFailed, failingViewState) ∧
    noIndexViewState.update_pipeline indexedPipelineInfo =
      (Except.ok (), { noIndexViewState with pipeline := builtIndexedPipeline }) := by
  refine ⟨?_, ?_⟩
  · exact (pipeline_build_atomic failingViewState indexedPipelineInfo).2.1
      Brepview.BuildError.shaderCompileFailed rfl
  · exact (pipeline_build_atomic noIndexViewState indexedPipelineInfo).2.2
      builtIndexedPipeline rfl

/-- Claim C8: a camera update with no directional key pressed is the
identity on the camera (eye and target unchanged); an update with the
forward key pressed translates eye and target by one common vector,
preserving the camera's orientation (the eye-to-target offset and the up
vector). -/
theorem camera_update_rigid (ctl : CameraController) (c : Camera) :
    (ctl.isForwardPressed = false → ctl.isBackwardPressed = false →
     ctl.isLeftPressed = false → ctl.isRightPressed = false →
     CameraController.update_camera ctl c = c) ∧
    (ctl.isForwardPressed = true →
      ∃ v, (CameraController.update_camera ctl c).eye = c.eye.add v ∧
        (CameraController.update_camera ctl c).target = c.target.add v ∧
        ((CameraController.update_camera ctl c).target).sub
          ((CameraController.update_camera ctl c).eye) = c.target.sub c.eye ∧
        (CameraController.update_camera ctl c).up = c.up) := by
  constructor
  · intro h1 h2 h3 h4
    simp [CameraController.update_camera, CameraController.translation, h1, h2, h3, h4,
      Vec3.add_zero_eq]
  · intro hf
    refine ⟨CameraController.translation ctl c, rfl, rfl, ?_, rfl⟩
    exact Vec3.sub_add_same c.target c.eye (CameraController.translation ctl c)

/-- Witness for C8: the idle controller fixes the sample camera, and the
forward-pressed controller translates eye and target together. -/
theorem camera_update_rigid_witness :
    CameraController.update_camera idleController sampleCamera = sampleCamera ∧
    (∃ v, (CameraController.update_camera forwardController sampleCamera).eye =
        sampleCamera.eye.add v ∧
      (CameraController.update_camera forwardController sampleCamera).target =
        sampleCamera.target.add v ∧
      ((CameraController.update_camera forwardController sampleCamera).target).sub
        ((CameraController.update_camera forwardController sampleCamera).eye) =
        sampleCamera.target.sub sampleCamera.eye ∧
      (CameraController.update_camera forwardController sampleCamera).up =
        sampleCamera.up) :=
  ⟨(camera_update_rigid idleController sampleCamera).1 rfl rfl rfl rfl,
   (camera_update_rigid forwardController sampleCamera).2 rfl⟩

/-- Claim C9: the surface-configured flag is monotone — it starts false at
construction, one step either leaves it unchanged or is a resize writing
`true`, and once true it stays true under every operation sequence. -/
theorem configured_flag_monotone :
    (∀ caps w hgt vc ic cam s0,
        Core.State.new caps w hgt vc ic cam = some s0 →
        s0.is_surface_configured = false) ∧
    (∀ s op, (Core.step s op).is_surface_configured = s.is_surface_configured ∨
        ((∃ w hgt, op = Core.Op.resize w hgt) ∧
         (Core.step s op).is_surface_configured = true)) ∧
    (∀ s ops, s.is_surface_configured = true →
        (Core.run s ops).is_surface_configured = true) := by
  refine ⟨?_, ?_, run_keeps_configured⟩
  · intro caps w hgt vc ic cam s0 hnew
    simp only [Core.State.new, Option.map_eq_some'] at hnew
    obtain ⟨cfg, hcfg, rfl⟩ := hnew
    rfl
  · intro s op
    cases op with
    | resize w hgt =>
        simp only [Core.step, Core.State.resize]
        split
        · exact Or.inr ⟨⟨w, hgt, rfl⟩, rfl⟩
        · exact Or.inl rfl
    | handleKey code pressed =>
        cases code <;> cases pressed <;> exact Or.inl rfl
    | update => exact Or.inl rfl
    | render acq => exact Or.inl rfl

/-- Witness for C9: a freshly constructed state has the flag false, and a
configured state stays configured across a concrete operation sequence
including a zero-dimension resize, a render, a key press and an update. -/
theorem configured_flag_monotone_witness :
    sampleNewCoreState.is_surface_configured = false ∧
    (Core.run configuredCoreState
      [Core.Op.update, Core.Op.resize 0 0, Core.Op.render (Except.ok ()),
       Core.Op.handleKey KeyCode.keyW true]).is_surface_configured = true :=
  ⟨configured_flag_monotone.1 sampleCaps 800 600 4 6 sampleCamera sampleNewCoreState rfl,
   configured_flag_monotone.2.2 configuredCoreState
     [Core.Op.update, Core.Op.resize 0 0, Core.Op.render (Except.ok ()),
      Core.Op.handleKey KeyCode.keyW true] rfl⟩

/-- Claim C10: `State::new` indexes the adapter capability lists with no
emptiness check; when the three lists are nonempty the panic branch is
unreachable (a configuration is produced), while an adapter reporting
empty lists makes construction panic rather than return an error value. -/
theorem caps_indexed_without_check (caps : SurfaceCapabilities) (w hgt vc ic : Nat)
    (cam : Camera)
    (h1 : caps.formats ≠ []) (h2 : caps.presentModes ≠ []) (h3 : caps.alphaModes ≠ []) :
    (initSurfaceConfig caps w hgt).isSome = true ∧
    initSurfaceConfig emptyCaps w hgt = none ∧
    Core.State.new emptyCaps w hgt vc ic cam = none := by
  refine ⟨?_, rfl, rfl⟩
  obtain ⟨f, fs, hf⟩ := List.exists_cons_of_ne_nil h1
  obtain ⟨pm, pms, hpm⟩ := List.exists_cons_of_ne_nil h2
  obtain ⟨am, ams, ham⟩ := List.exists_cons_of_ne_nil h3
  simp [initSurfaceConfig, chooseSurfaceFormat, hf, hpm, ham]

/-- Witness for C10: the sample capabilities (all lists nonempty) produce a
configuration; the empty capabilities produce the panic. -/
theorem caps_indexed_without_check_witness :
    (initSurfaceConfig sampleCaps 800 600).isSome = true ∧
    initSurfaceConfig emptyCaps 800 600 = none := by
  obtain ⟨a, b, _⟩ := caps_indexed_without_check sampleCaps 800 600 4 6 sampleCamera
    (by decide) (by decide) (by decide)
  exact ⟨a, b⟩

end Brep
